import Mathlib

/-!
Shallow embedding of `src/src/main.cpp` (ESP32 weather monitoring firmware).

The embedding models the connectivity bootstrap (`connectToWiFi`, `setup`),
the telemetry pipeline (`fetchSensorData`, `broadcastReadings`, `loop`),
the SD-card persistent log (`logDataToSD`, the `/clearcsv` and
`/downloadcsv` route handlers), the WebSocket inbound handler
(`handleWebSocketData`) and the NTP sync loop (`syncTime`).

External effects (WiFi status polls, wall-clock availability, sensor
values) are passed in as explicit environment parameters; side effects
(WebSocket sends, SD writes) are recorded as events or state updates.
-/

namespace Energy

/-! ## Decimal formatting of the temperature value

`fetchSensorData` does `String(temperatureSensors.getTempCByIndex(0))`:
the Arduino `String(float)` constructor renders the value with two
decimal places (sign, integer digits, a dot, two fraction digits).
We model the raw sensor value as an integer number of centi-degrees,
so the Dallas "disconnected" sentinel -127 °C is the value -12700. -/

/-- Decimal digits of a natural number, most significant first (fuel-driven,
fuel must exceed the number of digits). -/
def natDigitsAux : Nat → Nat → List Char
  | 0, _ => []
  | fuel+1, n =>
    if n < 10 then [Char.ofNat (48 + n)]
    else natDigitsAux fuel (n / 10) ++ [Char.ofNat (48 + n % 10)]

/-- Decimal rendering of a natural number. -/
def natDecimal (n : Nat) : String := ⟨natDigitsAux (n + 1) n⟩

/-- Two-digit zero-padded rendering of `n < 100` (the fraction part). -/
def pad2 (n : Nat) : String := if n < 10 then "0" ++ natDecimal n else natDecimal n

/-- Model of `String(getTempCByIndex(0))` on a reading of `centi`
centi-degrees: sign, integer part, dot, two fraction digits. -/
def formatTemp (centi : Int) : String :=
  (if centi < 0 then "-" else "") ++ natDecimal (centi.natAbs / 100) ++ "." ++ pad2 (centi.natAbs % 100)

/-- The Dallas sentinel `DEVICE_DISCONNECTED_C` (-127 °C) in centi-degrees. -/
def sentinelTempCenti : Int := -12700

/-! ## fetchSensorData -/

/-- `JSON.stringify(sensorData)` for the two-field object built by
`fetchSensorData`: keys "temp" and "time" in insertion order. -/
def serializeReading (temp time : String) : String :=
  "\x7b\"temp\":\"" ++ temp ++ "\",\"time\":\"" ++ time ++ "\"\x7d"

/-- The time-stamping branch of `fetchSensorData`: if `getLocalTime`
fails the sentinel "N/A" is stored, else the `strftime("%FT%T%z")`
rendering. `clock = none` models `getLocalTime` failing. -/
def stampTime : Option String → String
  | none => "N/A"
  | some s => s

/-- `fetchSensorData`: sample the sensor, stamp the (possibly unavailable)
wall-clock time, serialize to one JSON line plus a trailing newline. -/
def fetchSensorData (centi : Int) (clock : Option String) : String :=
  serializeReading (formatTemp centi) (stampTime clock) ++ "\n"

/-! ## SD card persistent log -/

/-- SD-card state: whether the card is mounted/usable, and the content of
`/data/sensorData.log` (`none` = the file does not exist). -/
structure SDState where
  mounted : Bool
  logFile : Option String
deriving Repr, DecidableEq

/-- Observable pipeline events. -/
inductive Ev
  | broadcast (payload : String)
  | append (payload : String)
  | appendFailed
deriving Repr, DecidableEq

/-- `logDataToSD`: open `/data/sensorData.log` in append mode (creating it
if absent), `println` the payload — which writes the payload plus "\r\n" —
and close the handle.  If the card is unavailable the open fails and the
function returns after logging a diagnostic. -/
def logDataToSD (sd : SDState) (data : String) : SDState × List Ev :=
  if sd.mounted then
    ({ sd with logFile := some ((sd.logFile.getD "") ++ data ++ "\r\n") }, [Ev.append data])
  else
    (sd, [Ev.appendFailed])

/-- `broadcastReadings`: `webSocket.textAll(data)` then `logDataToSD(data)`. -/
def broadcastReadings (sd : SDState) (data : String) : SDState × List Ev :=
  let r := logDataToSD sd data
  (r.1, Ev.broadcast data :: r.2)

/-- The `/clearcsv` route handler: `SD.remove("/data/sensorData.log")`
(succeeds only when the card is mounted). -/
def clearLog (sd : SDState) : SDState :=
  if sd.mounted then { sd with logFile := none } else sd

/-- The `/downloadcsv` route handler, viewed as `PersistentLog.readAll`:
stream the raw bytes of the log file (an absent file yields no bytes). -/
def readAll (sd : SDState) : String := sd.logFile.getD ""

/-! ## Line counting for the log

Each appended record is one JSON line already ending in "\n", and
`file.println` adds "\r\n" on top (the double termination the spec says
`readAll` consumers must tolerate), so a "log line" is a maximal nonempty
run of non-terminator characters. -/

/-- Is `c` a line-terminator byte written by the logger? -/
def isSep (c : Char) : Bool := c = '\n' || c = '\r'

/-- Count maximal nonempty runs of non-terminator characters.  The flag
records whether we are currently inside such a run. -/
def countLinesAux : List Char → Bool → Nat
  | [], inLine => if inLine then 1 else 0
  | c :: rest, inLine =>
    if isSep c then (if inLine then 1 else 0) + countLinesAux rest false
    else countLinesAux rest true

/-- Number of log lines in a raw byte stream. -/
def countLogLines (s : String) : Nat := countLinesAux s.data false

/-! ## Connectivity bootstrap -/

/-- The retry loop of `connectToWiFi`:
`while (WiFi.status() != WL_CONNECTED && attempts < 10) { delay(1000); attempts++; }`.
`status n` is the result of the status poll after `n` one-second delays;
`fuel` keeps `attempts + fuel = 10`.  Returns (attempts, sleeps) on exit;
each loop iteration performs exactly one `delay(1000)` and one increment. -/
def wifiRetryLoop (status : Nat → Bool) : Nat → Nat → Nat → Nat × Nat
  | attempts, sleeps, 0 => (attempts, sleeps)
  | attempts, sleeps, fuel+1 =>
    if status attempts then (attempts, sleeps)
    else wifiRetryLoop status (attempts+1) (sleeps+1) fuel

/-- Outcome of `connectToWiFi`. -/
structure ConnectOutcome where
  joined : Bool
  attempts : Nat
  sleeps : Nat
  beginCalls : Nat
deriving Repr, DecidableEq

/-- `connectToWiFi`: read the two credential files, call `WiFi.begin`
once (unconditionally — the credentials are not inspected), run the
bounded retry loop, and report success from a final status poll.
`ssid`/`pass` are the contents read from `/ssid.txt` and `/pass.txt`. -/
def connectToWiFi (ssid pass : String) (status : Nat → Bool) : ConnectOutcome :=
  let _ := ssid
  let _ := pass
  let r := wifiRetryLoop status 0 0 10
  { joined := status r.1, attempts := r.1, sleeps := r.2, beginCalls := 1 }

/-- Spec-level connectivity states. -/
inductive ConnectivityState
  | Idle
  | JoiningNetwork
  | Joined
  | ProvisioningMode
deriving Repr, DecidableEq

/-- The connectivity decision of `setup`: if `connectToWiFi()` fails,
`startAccessPoint()` (ProvisioningMode); otherwise the device is Joined. -/
def bootstrapMode (ssid pass : String) (status : Nat → Bool) : ConnectivityState :=
  if (connectToWiFi ssid pass status).joined then ConnectivityState.Joined
  else ConnectivityState.ProvisioningMode

/-! ## The main loop -/

/-- Device state relevant to `loop()`. -/
structure DeviceState where
  /-- Whether `WiFi.status() == WL_CONNECTED`; set by the bootstrap and
  not revisited (no re-join logic exists). -/
  joined : Bool
  sd : SDState
  previousMillis : Nat
deriving Repr, DecidableEq

/-- Environment of one `loop()` iteration: current `millis()`, the sensor
value and the wall clock should a tick fire. -/
structure LoopInput where
  now : Nat
  centi : Int
  clock : Option String

/-- One `loop()` iteration: when connected and the interval has elapsed,
fetch, print, broadcast + log, and reset `previousMillis`. -/
def loopStep (st : DeviceState) (inp : LoopInput) : DeviceState × List Ev :=
  if st.joined && decide (inp.now - st.previousMillis > 3000) then
    let data := fetchSensorData inp.centi inp.clock
    let r := broadcastReadings st.sd data
    ({ st with sd := r.1, previousMillis := inp.now }, r.2)
  else
    (st, [])

/-- Run `loop()` over a sequence of iteration environments, collecting
all events in order. -/
def runLoop (st : DeviceState) : List LoopInput → DeviceState × List Ev
  | [] => (st, [])
  | inp :: rest =>
    let r := loopStep st inp
    let r2 := runLoop r.1 rest
    (r2.1, r.2 ++ r2.2)

/-- One timer tick of the telemetry pipeline, as `loop()` performs it once
the guard has passed: fetch, then `broadcastReadings`. -/
def tick (sd : SDState) (centi : Int) (clock : Option String) : SDState × List Ev :=
  broadcastReadings sd (fetchSensorData centi clock)

/-- Run `n` consecutive pipeline ticks with per-tick sensor/clock inputs. -/
def runTicks (sd : SDState) : List (Int × Option String) → SDState × List Ev
  | [] => (sd, [])
  | (c, t) :: rest =>
    let r := tick sd c t
    let r2 := runTicks r.1 rest
    (r2.1, r.2 ++ r2.2)

/-! ## WebSocket inbound handling -/

/-- WebSocket frame opcodes distinguished by the handler. -/
inductive WsOpcode
  | text
  | binary
  | continuation
deriving Repr, DecidableEq

/-- The `AwsFrameInfo` fields inspected by `handleWebSocketData`. -/
structure FrameInfo where
  final : Bool
  index : Nat
  len : Nat
  opcode : WsOpcode
deriving Repr, DecidableEq

/-- Reply actions of the WebSocket data handler (`client->text` is a
unicast to the requesting client only). -/
inductive WsAction
  | unicast (payload : String)
deriving Repr, DecidableEq

/-- `handleWebSocketData`: act only on a final, unfragmented, fully
delivered text frame; within that, only on the exact payload
"getReadings", replying with a fresh reading to the requesting client. -/
def handleWebSocketData (info : FrameInfo) (data : String)
    (centi : Int) (clock : Option String) : List WsAction :=
  if info.final && decide (info.index = 0) && decide (info.len = data.length)
      && decide (info.opcode = WsOpcode.text) then
    if data = "getReadings" then [WsAction.unicast (fetchSensorData centi clock)]
    else []
  else []

/-! ## NTP time synchronization -/

/-- `syncTime`: `while (!getLocalTime(&timeinfo)) { delay(1000); }` —
an unbounded poll-sleep loop.  `avail n` is whether the `n`-th
`getLocalTime` poll succeeds; the fuel argument bounds how many loop
iterations we are willing to unfold, `none` meaning the loop has not
returned within that many iterations.  Returns the number of one-second
sleeps performed before returning. -/
def syncTimeFuel (avail : Nat → Bool) : Nat → Nat → Option Nat
  | _, 0 => none
  | polls, fuel+1 =>
    if avail polls then some polls
    else syncTimeFuel avail (polls+1) fuel

/-! ## Decimal-string well-formedness -/

/-- "one or more digits" — the fraction part of a decimal literal. -/
def digitsFrac : List Char → Bool
  | [] => false
  | [c] => c.isDigit
  | c :: rest => c.isDigit && digitsFrac rest

/-- "one or more digits, a dot, one or more digits". -/
def digitsDotFrac : List Char → Bool
  | [] => false
  | c :: rest =>
    if c.isDigit then
      if rest.head? = some '.' then digitsFrac rest.tail
      else digitsDotFrac rest
    else false

/-- A decimal temperature rendering: optional leading minus, then
digits, dot, digits. -/
def isDecimalString (s : String) : Bool :=
  match s.data with
  | [] => false
  | c :: rest => if c = '-' then digitsDotFrac rest else digitsDotFrac (c :: rest)

/-- Does a clock string avoid the log's line-terminator bytes?
(`strftime("%FT%T%z")` output never contains them.) -/
def clockOk : Option String → Bool
  | none => true
  | some s => s.data.all fun c => !isSep c

/-! ## Helper lemmas: line counting -/

theorem countLinesAux_append_sep (c : Char) (hc : isSep c = true) :
    ∀ (xs ys : List Char) (b : Bool),
      countLinesAux (xs ++ c :: ys) b = countLinesAux (xs ++ [c]) b + countLinesAux ys false
  | [], ys, b => by simp [countLinesAux, hc]
  | x :: xs, ys, b => by
    by_cases hx : isSep x = true <;>
      simp [countLinesAux, hx, countLinesAux_append_sep c hc xs ys, Nat.add_assoc]

theorem countLinesAux_nonsep (l : List Char) (hl : ∀ c ∈ l, isSep c = false) :
    ∀ (tail : List Char) (b : Bool),
      countLinesAux (l ++ tail) b = countLinesAux tail (b || !l.isEmpty) := by
  induction l with
  | nil => intro tail b; simp
  | cons c l ih =>
    intro tail b
    have hc : isSep c = false := hl c (List.mem_cons_self c l)
    have ih' := ih (fun x hx => hl x (List.mem_cons_of_mem c hx)) tail true
    simp [countLinesAux, hc, ih']

theorem countLinesAux_seps (l : List Char) (hl : ∀ c ∈ l, isSep c = true) (b : Bool) :
    countLinesAux l b = if b then 1 else 0 := by
  induction l generalizing b with
  | nil => rfl
  | cons c l ih =>
    have hc : isSep c = true := hl c (List.mem_cons_self c l)
    have ih' := ih (fun x hx => hl x (List.mem_cons_of_mem c hx)) false
    simp [countLinesAux, hc, ih']

/-- One logged record — a nonempty terminator-free JSON line followed by
its own "\n" and the `println` "\r\n" — counts as exactly one log line. -/
theorem countLinesAux_chunk (l : List Char) (hne : l ≠ [])
    (hl : ∀ c ∈ l, isSep c = false) :
    countLinesAux (l ++ ['\n', '\r', '\n']) false = 1 := by
  rw [countLinesAux_nonsep l hl]
  have : l.isEmpty = false := by simpa [List.isEmpty_iff] using hne
  simp only [this, Bool.not_false, Bool.or_true]
  decide

/-! ## Helper lemmas: digits and decimal strings -/

theorem digitChar_isDigit : ∀ m, m < 10 → (Char.ofNat (48 + m)).isDigit = true := by decide

theorem natDigitsAux_digits :
    ∀ (fuel n : Nat), n < 10 ^ fuel → fuel ≠ 0 →
      natDigitsAux fuel n ≠ [] ∧ ∀ c ∈ natDigitsAux fuel n, c.isDigit = true
  | 0, _, _, h0 => absurd rfl h0
  | fuel+1, n, hn, _ => by
    by_cases h : n < 10
    · refine ⟨by simp [natDigitsAux, h], ?_⟩
      intro c hc
      simp [natDigitsAux, h] at hc
      subst hc
      exact digitChar_isDigit n h
    · have hf : fuel ≠ 0 := by
        rintro rfl
        simp at hn
        omega
      have hdiv : n / 10 < 10 ^ fuel := by
        apply Nat.div_lt_of_lt_mul
        rw [Nat.mul_comm]
        simpa [Nat.pow_succ] using hn
      obtain ⟨hne, hall⟩ := natDigitsAux_digits fuel (n / 10) hdiv hf
      refine ⟨by simp [natDigitsAux, h, hne], ?_⟩
      intro c hc
      simp only [natDigitsAux, h, if_false, List.mem_append, List.mem_singleton] at hc
      rcases hc with hc | hc
      · exact hall c hc
      · subst hc
        exact digitChar_isDigit _ (Nat.mod_lt _ (by omega))

theorem natDecimal_digits (n : Nat) :
    (natDecimal n).data ≠ [] ∧ ∀ c ∈ (natDecimal n).data, c.isDigit = true := by
  have h1 : n < 10 ^ (n + 1) :=
    Nat.lt_of_lt_of_le (Nat.lt_pow_self (by norm_num) n)
      (Nat.pow_le_pow_right (by norm_num) (Nat.le_succ n))
  exact natDigitsAux_digits (n + 1) n h1 (Nat.succ_ne_zero n)

theorem pad2_digits (n : Nat) :
    (pad2 n).data ≠ [] ∧ ∀ c ∈ (pad2 n).data, c.isDigit = true := by
  obtain ⟨hne, hall⟩ := natDecimal_digits n
  unfold pad2
  by_cases h : n < 10
  · simp only [h, if_true, String.data_append]
    refine ⟨by simp, ?_⟩
    intro c hc
    simp only [List.mem_append] at hc
    rcases hc with hc | hc
    · simp only [show ("0" : String).data = ['0'] from rfl, List.mem_singleton] at hc
      subst hc
      decide
    · exact hall c hc
  · simp only [h, if_false]
    exact ⟨hne, hall⟩

theorem isDigit_ne_dot (c : Char) (h : c.isDigit = true) : c ≠ '.' := by
  intro he
  rw [he] at h
  exact absurd h (by decide)

theorem isDigit_ne_dash (c : Char) (h : c.isDigit = true) : c ≠ '-' := by
  intro he
  rw [he] at h
  exact absurd h (by decide)

theorem digitsFrac_all (l : List Char) (hne : l ≠ []) (hl : ∀ c ∈ l, c.isDigit = true) :
    digitsFrac l = true := by
  induction l with
  | nil => exact absurd rfl hne
  | cons c l ih =>
    cases l with
    | nil => simpa [digitsFrac] using hl c (List.mem_cons_self c [])
    | cons c2 l2 =>
      have hd := hl c (List.mem_cons_self _ _)
      have := ih (by simp) (fun x hx => hl x (List.mem_cons_of_mem c hx))
      simp [digitsFrac, hd, this]

theorem digitsDotFrac_of (d frac : List Char) (hd : d ≠ [])
    (hdd : ∀ c ∈ d, c.isDigit = true) (hf : digitsFrac frac = true) :
    digitsDotFrac (d ++ '.' :: frac) = true := by
  induction d with
  | nil => exact absurd rfl hd
  | cons c d ih =>
    have hc : c.isDigit = true := hdd c (List.mem_cons_self _ _)
    cases d with
    | nil => simp [digitsDotFrac, hc, hf]
    | cons c2 d2 =>
      have hc2 : c2.isDigit = true := hdd c2 (by simp)
      have hih := ih (by simp) (fun x hx => hdd x (List.mem_cons_of_mem c hx))
      have hne : c2 ≠ '.' := isDigit_ne_dot c2 hc2
      simp only [List.cons_append, digitsDotFrac, hc, if_true, List.head?_cons,
        List.tail_cons] at hih ⊢
      simpa [hne] using hih

/-- The temperature rendering is always a well-formed decimal literal. -/
theorem isDecimalString_formatTemp (centi : Int) : isDecimalString (formatTemp centi) = true := by
  obtain ⟨hq, hqd⟩ := natDecimal_digits (centi.natAbs / 100)
  obtain ⟨hr, hrd⟩ := pad2_digits (centi.natAbs % 100)
  have hfrac : digitsFrac (pad2 (centi.natAbs % 100)).data = true := digitsFrac_all _ hr hrd
  have hbody :
      digitsDotFrac ((natDecimal (centi.natAbs / 100)).data ++
        '.' :: (pad2 (centi.natAbs % 100)).data) = true :=
    digitsDotFrac_of _ _ hq hqd hfrac
  unfold formatTemp isDecimalString
  by_cases hneg : centi < 0
  · simp only [hneg, if_true, String.data_append,
      show ("-" : String).data = ['-'] from rfl,
      show ("." : String).data = ['.'] from rfl]
    simpa using hbody
  · simp only [hneg, if_false, String.data_append,
      show ("" : String).data = [] from rfl,
      show ("." : String).data = ['.'] from rfl, List.nil_append]
    rcases hh : (natDecimal (centi.natAbs / 100)).data with _ | ⟨c, rest⟩
    · exact absurd hh hq
    · have hcd : c.isDigit = true := hqd c (by rw [hh]; exact List.mem_cons_self _ _)
      have hcne : c ≠ '-' := isDigit_ne_dash c hcd
      rw [hh] at hbody
      simpa [hcne, List.cons_append] using hbody

/-! ## Helper lemmas: characters of the serialized reading -/

theorem isSep_eq_false_of_isDigit (c : Char) (h : c.isDigit = true) : isSep c = false := by
  simp only [isSep, Bool.or_eq_false_iff, decide_eq_false_iff_not]
  constructor <;> intro he <;> rw [he] at h <;> exact absurd h (by decide)

/-- No character of the rendered temperature is a line terminator. -/
theorem formatTemp_noSep (centi : Int) : ∀ c ∈ (formatTemp centi).data, isSep c = false := by
  obtain ⟨_, hqd⟩ := natDecimal_digits (centi.natAbs / 100)
  obtain ⟨_, hrd⟩ := pad2_digits (centi.natAbs % 100)
  intro c hc
  unfold formatTemp at hc
  simp only [String.data_append, List.mem_append,
    show ("." : String).data = ['.'] from rfl] at hc
  rcases hc with ((hc | hc) | hc) | hc
  · by_cases hneg : centi < 0 <;> simp [hneg] at hc
    rcases hc with rfl
    decide
  · exact isSep_eq_false_of_isDigit c (hqd c hc)
  · simp only [List.mem_singleton] at hc
    subst hc
    decide
  · exact isSep_eq_false_of_isDigit c (hrd c hc)

/-- The serialized JSON line is nonempty and free of line terminators
whenever its two field values are. -/
theorem serializeReading_noSep (temp time : String)
    (ht : ∀ c ∈ temp.data, isSep c = false) (hs : ∀ c ∈ time.data, isSep c = false) :
    (serializeReading temp time).data ≠ [] ∧
      ∀ c ∈ (serializeReading temp time).data, isSep c = false := by
  unfold serializeReading
  simp only [String.data_append]
  constructor
  · simp [show ("\x7b\"temp\":\"" : String).data =
      ['\x7b', '"', 't', 'e', 'm', 'p', '"', ':', '"'] from rfl]
  · intro c hc
    simp only [List.mem_append] at hc
    rcases hc with (((hc | hc) | hc) | hc) | hc
    · exact (by decide : ∀ x ∈ ("\x7b\"temp\":\"" : String).data, isSep x = false) c hc
    · exact ht c hc
    · exact (by decide : ∀ x ∈ ("\",\"time\":\"" : String).data, isSep x = false) c hc
    · exact hs c hc
    · exact (by decide : ∀ x ∈ ("\"\x7d" : String).data, isSep x = false) c hc

/-- The time string stamped by `fetchSensorData` is terminator-free for
any admissible clock value. -/
theorem clockOk_noSep (clock : Option String) (h : clockOk clock = true) :
    ∀ c ∈ (stampTime clock).data, isSep c = false := by
  cases clock with
  | none =>
    show ∀ c ∈ ("N/A" : String).data, isSep c = false
    decide
  | some s =>
    intro c hc
    have := List.all_eq_true.mp h c hc
    simpa using this

/-- Appending one record (a terminator-free JSON line, its own "\n", and
the `println` "\r\n") to a log that is empty or newline-terminated adds
exactly one log line and keeps the log newline-terminated. -/
theorem countLog_append_record (old json : String)
    (hold : old.data = [] ∨ ∃ l, old.data = l ++ ['\n'])
    (hne : json.data ≠ []) (hjson : ∀ c ∈ json.data, isSep c = false) :
    countLogLines (old ++ (json ++ "\n") ++ "\r\n") = countLogLines old + 1 ∧
      ∃ l, (old ++ (json ++ "\n") ++ "\r\n").data = l ++ ['\n'] := by
  have hdata : (old ++ (json ++ "\n") ++ "\r\n").data
      = old.data ++ (json.data ++ ['\n', '\r', '\n']) := by
    simp [String.data_append, show ("\n" : String).data = ['\n'] from rfl,
      show ("\r\n" : String).data = ['\r', '\n'] from rfl]
  have hchunk : countLinesAux (json.data ++ ['\n', '\r', '\n']) false = 1 :=
    countLinesAux_chunk json.data hne hjson
  constructor
  · unfold countLogLines
    rw [hdata]
    rcases hold with h0 | ⟨l, hl⟩
    · rw [h0, List.nil_append, hchunk]
      rfl
    · rw [hl]
      have := countLinesAux_append_sep '\n' (by decide) l (json.data ++ ['\n', '\r', '\n']) false
      rw [List.append_assoc, List.singleton_append, this, hchunk]
  · refine ⟨old.data ++ json.data ++ ['\n', '\r'], ?_⟩
    rw [hdata]
    simp

/-- Running the pipeline over any tick sequence on a mounted card adds one
log line per tick and preserves mountedness and newline termination. -/
theorem runTicks_count (inputs : List (Int × Option String)) :
    ∀ sd : SDState, sd.mounted = true →
      (∀ p ∈ inputs, clockOk p.2 = true) →
      ((readAll sd).data = [] ∨ ∃ l, (readAll sd).data = l ++ ['\n']) →
      (runTicks sd inputs).1.mounted = true ∧
        countLogLines (readAll (runTicks sd inputs).1) =
          countLogLines (readAll sd) + inputs.length := by
  induction inputs with
  | nil => intro sd hm _ _; exact ⟨hm, rfl⟩
  | cons p rest ih =>
    intro sd hm hc htail
    obtain ⟨c, t⟩ := p
    have hct : clockOk t = true := hc (c, t) (List.mem_cons_self _ _)
    obtain ⟨hjne, hjsep⟩ :=
      serializeReading_noSep (formatTemp c) _ (formatTemp_noSep c) (clockOk_noSep t hct)
    have hsd1 : (tick sd c t).1 =
        { sd with logFile := some (readAll sd ++ fetchSensorData c t ++ "\r\n") } := by
      simp [tick, broadcastReadings, logDataToSD, hm, readAll]
    have hread : readAll (tick sd c t).1 =
        readAll sd ++ (serializeReading (formatTemp c) (stampTime t) ++ "\n") ++ "\r\n" := by
      rw [hsd1]
      rfl
    obtain ⟨hcount, hterm⟩ :=
      countLog_append_record (readAll sd)
        (serializeReading (formatTemp c) (stampTime t))
        htail hjne hjsep
    have hm1 : (tick sd c t).1.mounted = true := by rw [hsd1]; exact hm
    have ihr := ih (tick sd c t).1 hm1
      (fun q hq => hc q (List.mem_cons_of_mem _ hq))
      (by rw [hread]; exact Or.inr hterm)
    have hrun1 : (runTicks sd ((c, t) :: rest)).1 = (runTicks (tick sd c t).1 rest).1 := rfl
    rw [hrun1]
    refine ⟨ihr.1, ?_⟩
    have h2 : countLogLines (readAll (tick sd c t).1) = countLogLines (readAll sd) + 1 := by
      rw [hread]
      exact hcount
    rw [ihr.2, h2, List.length_cons]
    omega

/-! ## Helper lemmas: the WiFi retry loop -/

theorem wifiRetryLoop_never (status : Nat → Bool) :
    ∀ (fuel attempts sleeps : Nat),
      (∀ n, n < attempts + fuel → status n = false) →
      wifiRetryLoop status attempts sleeps fuel = (attempts + fuel, sleeps + fuel)
  | 0, attempts, sleeps, _ => rfl
  | fuel+1, attempts, sleeps, h => by
    have h0 : status attempts = false := h attempts (by omega)
    have := wifiRetryLoop_never status fuel (attempts+1) (sleeps+1)
      (fun n hn => h n (by omega))
    simp only [wifiRetryLoop, h0, Bool.false_eq_true, if_false, this, Prod.mk.injEq]
    constructor <;> omega

theorem wifiRetryLoop_fst_le (status : Nat → Bool) :
    ∀ (fuel attempts sleeps : Nat),
      (wifiRetryLoop status attempts sleeps fuel).1 ≤ attempts + fuel
  | 0, attempts, sleeps => Nat.le_refl _
  | fuel+1, attempts, sleeps => by
    by_cases h : status attempts = true
    · simp only [wifiRetryLoop, h, if_true]; omega
    · have := wifiRetryLoop_fst_le status fuel (attempts+1) (sleeps+1)
      simp only [wifiRetryLoop, h, if_false, Bool.false_eq_true]
      omega

theorem wifiRetryLoop_exit (status : Nat → Bool) :
    ∀ (fuel attempts sleeps : Nat),
      status (wifiRetryLoop status attempts sleeps fuel).1 = true ∨
        (wifiRetryLoop status attempts sleeps fuel).1 = attempts + fuel
  | 0, attempts, sleeps => Or.inr rfl
  | fuel+1, attempts, sleeps => by
    by_cases h : status attempts = true
    · left; simp [wifiRetryLoop, h]
    · have := wifiRetryLoop_exit status fuel (attempts+1) (sleeps+1)
      simp only [wifiRetryLoop, h, if_false, Bool.false_eq_true]
      rcases this with h1 | h1
      · exact Or.inl h1
      · right; omega

/-- `loop()` body events per-tick classification: is the event a
successful append? -/
def isAppendEv : Ev → Bool
  | Ev.append _ => true
  | _ => false

/-- Is the event a WebSocket broadcast? -/
def isBroadcastEv : Ev → Bool
  | Ev.broadcast _ => true
  | _ => false

/-- `loop()` never ticks while the station is not connected. -/
theorem runLoop_not_joined (sd : SDState) (pm : Nat) :
    ∀ inputs : List LoopInput, (runLoop ⟨false, sd, pm⟩ inputs).2 = [] := by
  intro inputs
  induction inputs with
  | nil => rfl
  | cons inp rest ih =>
    have hstep : loopStep ⟨false, sd, pm⟩ inp = (⟨false, sd, pm⟩, []) := by
      simp [loopStep]
    show (let r := loopStep ⟨false, sd, pm⟩ inp;
          let r2 := runLoop r.1 rest; (r2.1, r.2 ++ r2.2)).2 = []
    rw [hstep]
    simpa using ih

/-! ## Claims -/

/-- C1 counterexample: with both credential files empty, `connectToWiFi`
still issues the `WiFi.begin` join request and performs all 10 retry
attempts (it does not short-circuit to ProvisioningMode with zero
attempts, contrary to the claim). -/
theorem c1_empty_credentials_counterexample :
    (connectToWiFi "" "" (fun _ => false)).beginCalls = 1 ∧
      (connectToWiFi "" "" (fun _ => false)).attempts = 10 ∧
      ¬((connectToWiFi "" "" (fun _ => false)).attempts = 0 ∧
        (connectToWiFi "" "" (fun _ => false)).beginCalls = 0) := by
  decide

/-- C1 (amended): with absent/empty credentials the boot still ends in
ProvisioningMode, but only after `connectToWiFi` has unconditionally
issued one join request and exhausted the full 10-attempt retry loop
(the credentials are never inspected); no credential emptiness check
exists. -/
theorem c1_empty_credentials_amended (status : Nat → Bool)
    (h : ∀ n, n ≤ 10 → status n = false) :
    bootstrapMode "" "" status = ConnectivityState.ProvisioningMode ∧
      connectToWiFi "" "" status =
        { joined := false, attempts := 10, sleeps := 10, beginCalls := 1 } := by
  have hloop : wifiRetryLoop status 0 0 10 = (10, 10) :=
    wifiRetryLoop_never status 10 0 0 (fun n hn => h n (by omega))
  have hconn : connectToWiFi "" "" status =
      { joined := false, attempts := 10, sleeps := 10, beginCalls := 1 } := by
    unfold connectToWiFi
    rw [hloop]
    simp [h 10 (by omega)]
  refine ⟨?_, hconn⟩
  unfold bootstrapMode
  rw [hconn]
  rfl

/-- C1 witness: the amended statement at concrete empty credentials and a
never-connecting network. -/
theorem c1_witness :
    bootstrapMode "" "" (fun _ => false) = ConnectivityState.ProvisioningMode ∧
      connectToWiFi "" "" (fun _ => false) =
        { joined := false, attempts := 10, sleeps := 10, beginCalls := 1 } :=
  c1_empty_credentials_amended (fun _ => false) (fun _ _ => rfl)

/-- C2: starting from a mounted card with no log file, N pipeline ticks
whose clock stamps are terminator-free leave exactly N log lines in
`readAll()` of the persistent log. -/
theorem c2_log_line_count (inputs : List (Int × Option String)) (sd : SDState)
    (hm : sd.mounted = true) (hf : sd.logFile = none)
    (hc : ∀ p ∈ inputs, clockOk p.2 = true) :
    countLogLines (readAll (runTicks sd inputs).1) = inputs.length := by
  have h0 : (readAll sd).data = [] := by
    simp [readAll, hf]
  have hz : countLogLines (readAll sd) = 0 := by
    unfold countLogLines
    rw [h0]
    rfl
  have := (runTicks_count inputs sd hm hc (Or.inl h0)).2
  rw [this, hz, Nat.zero_add]

/-- C2 witness: two concrete ticks (one with a synchronized clock, one
with the sensor sentinel and no clock) leave exactly two log lines. -/
theorem c2_witness :
    countLogLines (readAll (runTicks ⟨true, none⟩
      [(2345, some "2024-06-01T12:00:00+0200"), (-12700, none)]).1) = 2 :=
  c2_log_line_count _ ⟨true, none⟩ rfl rfl (by decide)

/-- C3 counterexample: on a tick with the SD card unavailable, the
reading is broadcast but appended zero times — the append is skipped,
refuting "neither the broadcast nor the append is skipped" for every
run. -/
theorem c3_unmounted_counterexample :
    ((tick ⟨false, none⟩ 2500 none).2.filter isBroadcastEv).length = 1 ∧
      ((tick ⟨false, none⟩ 2500 none).2.filter isAppendEv).length = 0 := by
  decide

/-- C3 (amended): on every tick with the backing store available, the
same serialized reading is broadcast exactly once and appended exactly
once (broadcast first, then append); when the store is unavailable the
broadcast still occurs but the append is skipped with a diagnostic. -/
theorem c3_broadcast_append_paired (sd : SDState) (hm : sd.mounted = true)
    (centi : Int) (clock : Option String) :
    (tick sd centi clock).2 =
      [Ev.broadcast (fetchSensorData centi clock),
       Ev.append (fetchSensorData centi clock)] := by
  simp [tick, broadcastReadings, logDataToSD, hm]

/-- C3 witness: a concrete mounted tick yields exactly the broadcast and
the append of the same payload. -/
theorem c3_witness :
    (tick ⟨true, none⟩ 2500 none).2 =
      [Ev.broadcast (fetchSensorData 2500 none),
       Ev.append (fetchSensorData 2500 none)] :=
  c3_broadcast_append_paired ⟨true, none⟩ rfl 2500 none

/-- C4: with valid credentials, a single `WiFi.begin` is issued; if no
status poll up to the bound reports connected, `connectToWiFi` fails
after exactly 10 attempts with 10 one-second sleeps; if the network
becomes reachable (monotone status) within the bound, it succeeds within
10 attempts. -/
theorem c4_retry_policy (ssid pass : String) (status : Nat → Bool) :
    ((∀ n, n ≤ 10 → status n = false) →
      connectToWiFi ssid pass status =
        { joined := false, attempts := 10, sleeps := 10, beginCalls := 1 }) ∧
    ((∀ i j, i ≤ j → status i = true → status j = true) →
      (∃ k, k ≤ 10 ∧ status k = true) →
      (connectToWiFi ssid pass status).joined = true ∧
        (connectToWiFi ssid pass status).attempts ≤ 10 ∧
        (connectToWiFi ssid pass status).beginCalls = 1) := by
  constructor
  · intro h
    have hloop : wifiRetryLoop status 0 0 10 = (10, 10) :=
      wifiRetryLoop_never status 10 0 0 (fun n hn => h n (by omega))
    unfold connectToWiFi
    rw [hloop]
    simp [h 10 (by omega)]
  · rintro hmono ⟨k, hk, hks⟩
    have hle : (wifiRetryLoop status 0 0 10).1 ≤ 10 := wifiRetryLoop_fst_le status 10 0 0
    have hjoin : status (wifiRetryLoop status 0 0 10).1 = true := by
      rcases wifiRetryLoop_exit status 10 0 0 with h | h
      · exact h
      · rw [h]
        exact hmono k 10 hk hks
    exact ⟨by simpa [connectToWiFi] using hjoin, by simpa [connectToWiFi] using hle, rfl⟩

/-- C4 witness: a never-reachable network fails after exactly 10 attempts
and sleeps with one begin call; a network that connects from the third
poll on succeeds within the bound. -/
theorem c4_witness :
    connectToWiFi "net" "pw" (fun _ => false) =
      { joined := false, attempts := 10, sleeps := 10, beginCalls := 1 } ∧
    (connectToWiFi "net" "pw" (fun n => decide (3 ≤ n))).joined = true :=
  ⟨(c4_retry_policy "net" "pw" (fun _ => false)).1 (fun _ _ => rfl),
   ((c4_retry_policy "net" "pw" (fun n => decide (3 ≤ n))).2
      (fun i j hij hi => by
        simp only [decide_eq_true_eq] at hi ⊢
        omega)
      ⟨3, by omega, by decide⟩).1⟩

/-- C5: on a complete unfragmented text frame, the exact payload
"getReadings" triggers a fresh synchronous reading unicast to the
requesting client alone; any other payload is ignored without error. -/
theorem c5_getReadings_unicast (info : FrameInfo) (data : String)
    (centi : Int) (clock : Option String)
    (hfin : info.final = true) (hidx : info.index = 0)
    (hlen : info.len = data.length) (hop : info.opcode = WsOpcode.text) :
    (data = "getReadings" →
      handleWebSocketData info data centi clock =
        [WsAction.unicast (fetchSensorData centi clock)]) ∧
    (data ≠ "getReadings" → handleWebSocketData info data centi clock = []) := by
  constructor <;> intro hd <;> simp [handleWebSocketData, hfin, hidx, hlen, hop, hd]

/-- C5 witness: the command payload gets a unicast reply; a different
payload gets none. -/
theorem c5_witness :
    handleWebSocketData ⟨true, 0, "getReadings".length, WsOpcode.text⟩
        "getReadings" 2345 none =
      [WsAction.unicast (fetchSensorData 2345 none)] ∧
    handleWebSocketData ⟨true, 0, "ping".length, WsOpcode.text⟩ "ping" 2345 none = [] :=
  ⟨(c5_getReadings_unicast _ "getReadings" 2345 none rfl rfl rfl rfl).1 rfl,
   (c5_getReadings_unicast _ "ping" 2345 none rfl rfl rfl rfl).2 (by decide)⟩

/-- C6: on a mounted card, `clear()` removes the backing file so an
immediate `readAll()` is the empty stream; one subsequent append
recreates the file, and `readAll()` then holds exactly one log line. -/
theorem c6_clear_then_append (sd : SDState) (hm : sd.mounted = true)
    (centi : Int) (clock : Option String) (hc : clockOk clock = true) :
    readAll (clearLog sd) = "" ∧
      (clearLog sd).logFile = none ∧
      (logDataToSD (clearLog sd) (fetchSensorData centi clock)).1.logFile ≠ none ∧
      countLogLines
        (readAll (logDataToSD (clearLog sd) (fetchSensorData centi clock)).1) = 1 := by
  have hclear : clearLog sd = { sd with logFile := none } := by
    simp [clearLog, hm]
  obtain ⟨hjne, hjsep⟩ :=
    serializeReading_noSep (formatTemp centi) _ (formatTemp_noSep centi)
      (clockOk_noSep clock hc)
  have happ : (logDataToSD (clearLog sd) (fetchSensorData centi clock)).1 =
      { sd with logFile := some ("" ++ fetchSensorData centi clock ++ "\r\n") } := by
    rw [hclear]
    simp [logDataToSD, hm]
  refine ⟨by rw [hclear]; rfl, by rw [hclear], by rw [happ]; simp, ?_⟩
  rw [happ]
  have hrec := countLog_append_record ""
      (serializeReading (formatTemp centi) (stampTime clock))
      (Or.inl rfl) hjne hjsep
  have : countLogLines ("" : String) = 0 := rfl
  calc countLogLines
        (readAll { sd with logFile := some ("" ++ fetchSensorData centi clock ++ "\r\n") })
      = countLogLines ("" ++ (serializeReading (formatTemp centi) (stampTime clock)
          ++ "\n") ++ "\r\n") := rfl
    _ = countLogLines ("" : String) + 1 := hrec.1
    _ = 1 := by rw [this]

/-- C6 witness: clearing a concrete nonempty log empties it, and a single
append leaves exactly one line. -/
theorem c6_witness :
    readAll (clearLog ⟨true, some "x\n"⟩) = "" ∧
      (clearLog ⟨true, some "x\n"⟩).logFile = none ∧
      (logDataToSD (clearLog ⟨true, some "x\n"⟩) (fetchSensorData 2345 none)).1.logFile ≠ none ∧
      countLogLines
        (readAll (logDataToSD (clearLog ⟨true, some "x\n"⟩) (fetchSensorData 2345 none)).1) = 1 :=
  c6_clear_then_append ⟨true, some "x\n"⟩ rfl 2345 none rfl

/-- C7: every emitted reading is the JSON object with both the "temp" and
"time" keys present; the temperature value is always a well-formed
decimal string (the -127.00 sensor sentinel included), and an
unavailable clock yields the "N/A" sentinel rather than a failure. -/
theorem c7_reading_fields_total (centi : Int) (clock : Option String) :
    fetchSensorData centi clock =
      "\x7b\"temp\":\"" ++ formatTemp centi ++ "\",\"time\":\"" ++ stampTime clock
        ++ "\"\x7d" ++ "\n" ∧
    isDecimalString (formatTemp centi) = true ∧
    stampTime none = "N/A" ∧
    formatTemp sentinelTempCenti = "-127.00" :=
  ⟨rfl, isDecimalString_formatTemp centi, rfl, by decide⟩

/-- C8: whenever the bootstrap ends in ProvisioningMode, no iteration of
`loop()` ever runs the telemetry pipeline: no broadcast and no append
event is ever emitted. -/
theorem c8_no_tick_in_provisioning (ssid pass : String) (status : Nat → Bool)
    (sd : SDState) (pm : Nat) (inputs : List LoopInput)
    (h : bootstrapMode ssid pass status = ConnectivityState.ProvisioningMode) :
    (runLoop ⟨(connectToWiFi ssid pass status).joined, sd, pm⟩ inputs).2 = [] := by
  have hj : (connectToWiFi ssid pass status).joined = false := by
    unfold bootstrapMode at h
    by_cases hb : (connectToWiFi ssid pass status).joined = true
    · rw [if_pos hb] at h
      cases h
    · simpa using hb
  rw [hj]
  exact runLoop_not_joined sd pm inputs

/-- C8 witness: a failed bootstrap followed by loop iterations past the
timer interval produces no pipeline events. -/
theorem c8_witness :
    (runLoop ⟨(connectToWiFi "" "" (fun _ => false)).joined, ⟨true, none⟩, 0⟩
      [⟨5000, 2345, none⟩, ⟨10000, 2345, none⟩]).2 = [] :=
  c8_no_tick_in_provisioning "" "" (fun _ => false) ⟨true, none⟩ 0
    [⟨5000, 2345, none⟩, ⟨10000, 2345, none⟩] (by decide)

/-- C9: `syncTime` returns only when a `getLocalTime` poll succeeds, and
if the time source never responds it never returns, for any amount of
loop unfolding — an indefinite startup stall, not a crash. -/
theorem c9_syncTime_blocks_forever (avail : Nat → Bool) :
    (∀ polls fuel w, syncTimeFuel avail polls fuel = some w → avail w = true) ∧
    ((∀ n, avail n = false) → ∀ polls fuel, syncTimeFuel avail polls fuel = none) := by
  constructor
  · intro polls fuel
    induction fuel generalizing polls with
    | zero => intro w hw; cases hw
    | succ fuel ih =>
      intro w hw
      by_cases ha : avail polls = true
      · simp only [syncTimeFuel, ha, if_true, Option.some.injEq] at hw
        rw [← hw]
        exact ha
      · simp only [syncTimeFuel, ha, Bool.false_eq_true, if_false] at hw
        · exact ih (polls + 1) w hw
  · intro h polls fuel
    induction fuel generalizing polls with
    | zero => rfl
    | succ fuel ih =>
      simp only [syncTimeFuel, h polls, Bool.false_eq_true, if_false]
      exact ih (polls + 1)

/-- C9 witness: with no time source the loop has not returned after 50
iterations; with a source answering at the third poll it returns there. -/
theorem c9_witness :
    syncTimeFuel (fun _ => false) 0 50 = none ∧
      (fun n => decide (n = 2)) 2 = true :=
  ⟨(c9_syncTime_blocks_forever (fun _ => false)).2 (fun _ => rfl) 0 50,
   (c9_syncTime_blocks_forever (fun n => decide (n = 2))).1 0 7 2 (by decide)⟩

/-- C10: the handler acts — replies at all — exactly when the event
carries a single final unfragmented fully-delivered text frame whose
payload is the literal "getReadings"; fragmented, binary or partially
delivered frames (and any other payload) produce no action. -/
theorem c10_frame_gate (info : FrameInfo) (data : String)
    (centi : Int) (clock : Option String) :
    handleWebSocketData info data centi clock ≠ [] ↔
      (info.final = true ∧ info.index = 0 ∧ info.len = data.length ∧
        info.opcode = WsOpcode.text ∧ data = "getReadings") := by
  unfold handleWebSocketData
  by_cases h1 : info.final = true <;> by_cases h2 : info.index = 0 <;>
    by_cases h3 : info.len = data.length <;>
    by_cases h4 : info.opcode = WsOpcode.text <;>
    by_cases h5 : data = "getReadings" <;>
    simp [h1, h2, h3, h4, h5]

/-- C10 witness: a valid frame with the command payload produces an
action; a non-final frame with the same payload produces none. -/
theorem c10_witness :
    handleWebSocketData ⟨true, 0, "getReadings".length, WsOpcode.text⟩
        "getReadings" 2345 none ≠ [] ∧
      handleWebSocketData ⟨false, 0, "getReadings".length, WsOpcode.text⟩
        "getReadings" 2345 none = [] :=
  ⟨(c10_frame_gate _ "getReadings" 2345 none).mpr ⟨rfl, rfl, rfl, rfl, rfl⟩,
   by
    by_contra hne
    have := (c10_frame_gate ⟨false, 0, "getReadings".length, WsOpcode.text⟩
      "getReadings" 2345 none).mp hne
    cases this.1⟩

end Energy
